import Mathlib

/-!
Verification of the climate-sage CLI chat client (src/agent.py).

The program is a thin interactive shell over a remote chat API: a session
factory (`GeminiAgent.__init__`), a message relay (`send_message`), a
history renderer (`get_history`) and a read-eval-print loop
(`run_agent_cli`).  The remote service is modelled as an oracle function
from the current history and a prompt to either a reply text or an
exception message; the local code is translated line by line.
-/

namespace ClimateSage

/-- Python ASCII whitespace, the characters removed by `str.strip()`. -/
def isPyWS (c : Char) : Bool :=
  c = ' ' || c = '\t' || c = '\n' || c = '\r' || c = '\x0b' || c = '\x0c'

/-- ASCII case folding of one character, as `str.lower()` does on ASCII. -/
def pyCharLower (c : Char) : Char :=
  if 'A' ≤ c && c ≤ 'Z' then Char.ofNat (c.toNat + 32) else c

/-- Model of Python `s.lower()`. -/
def pyLower (s : String) : String :=
  ⟨s.data.map pyCharLower⟩

/-- Model of Python `s.strip()`: drop whitespace at both ends. -/
def pyStrip (s : String) : String :=
  ⟨((s.data.dropWhile isPyWS).reverse.dropWhile isPyWS).reverse⟩

/-- One content part of a turn.  `text = none` models a part object that
has no `text` attribute, so that `hasattr(part, 'text')` is false. -/
structure Part where
  text : Option String
deriving DecidableEq, Repr

/-- One turn of the remote chat history: a role tag and content parts. -/
structure Message where
  role : String
  parts : List Part
deriving DecidableEq, Repr

/-- The remote-service oracle: given the history so far and the prompt,
either a reply text (`Except.ok`) or a raised exception (`Except.error`). -/
def Remote : Type := List Message → String → Except String String

/-- State of `GeminiAgent`: whether `genai.Client()` succeeded
(`self.client` is not `None`) and the remote-held turn history. -/
structure GeminiAgent where
  clientOk : Bool
  history : List Message
deriving DecidableEq, Repr

/-- The persona instruction configured for the session (agent.py lines 31-36). -/
def system_instruction : String :=
  "You are a friendly and encouraging AI tutor named \x27Sage\x27. " ++
  "Your goal is to help users learn about climate change. " ++
  "Keep your answers concise, educational, and positive. " ++
  "Always try to provide educational and verified scientific information. "

/-- `GeminiAgent.__init__` (agent.py lines 13-50): tries to construct the
client; on failure prints a diagnostic and leaves the agent disabled, on
success opens the chat session and prints the greeting.  Returns the
agent together with the lines printed. -/
def GeminiAgent.init (clientInit : Except String Unit) : GeminiAgent × List String :=
  match clientInit with
  | Except.error e =>
      (⟨false, []⟩,
       ["Error initializing Gemini client. Make sure the GEMINI_API_KEY environment variable is set.",
        "Details: " ++ e])
  | Except.ok _ =>
      (⟨true, []⟩,
       ["Agent \x27Sage\x27 initialized using model: gemini-2.5-flash"])

/-- `GeminiAgent.send_message` (agent.py lines 52-65).  Returns the reply
string, the updated agent, and whether a network call was performed.
When the client is disabled it short-circuits with the fixed apology;
otherwise the remote call either appends a user turn and a model turn
and returns the reply text, or raises, in which case the exception is
converted to a string and returned as the reply. -/
def GeminiAgent.send_message (a : GeminiAgent) (remote : Remote) (prompt : String) :
    String × GeminiAgent × Bool :=
  if a.clientOk = false then
    ("Agent failed to initialize. Please check your API key setup.", a, false)
  else
    match remote a.history prompt with
    | Except.ok t =>
        (t,
         { a with history :=
             a.history ++ [⟨"user", [⟨some prompt⟩]⟩, ⟨"model", [⟨some t⟩]⟩] },
         true)
    | Except.error e =>
        ("An error occurred during message processing: " ++ e, a, true)

/-- The first content part's text, if the turn has a first part carrying a
`text` attribute (agent.py line 72). -/
def extractText (parts : List Part) : String :=
  match parts with
  | [] => "[Non-Text Content]"
  | p :: _ =>
      match p.text with
      | some t => t
      | none => "[Non-Text Content]"

/-- The display label of a turn's role (agent.py line 73). -/
def roleLabel (role : String) : String :=
  if role = "user" then "USER" else "SAGE"

/-- One rendered line of the history dump (agent.py line 74). -/
def renderLine (m : Message) : String :=
  "[" ++ roleLabel m.role ++ "]: " ++ extractText m.parts

/-- `GeminiAgent.get_history` (agent.py lines 67-75): the lines printed,
banner included. -/
def GeminiAgent.get_history (a : GeminiAgent) : List String :=
  ["\n--- Conversation History ---"] ++ a.history.map renderLine ++
  ["----------------------------\n"]

/-- Loop status of the read-eval-print loop. -/
inductive Status where
  | RUNNING
  | TERMINATED
deriving DecidableEq, Repr

/-- What the loop body does with one input line (agent.py lines 96-107). -/
inductive LoopAction where
  | terminate
  | showHistory
  | skip
  | relay (prompt : String)
deriving DecidableEq, Repr

/-- Classification of one input line by the loop body, in source order:
quit/exit check, then history, then blank, then free text. -/
def dispatch (s : String) : LoopAction :=
  if pyLower s = "quit" ∨ pyLower s = "exit" then LoopAction.terminate
  else if pyLower s = "history" then LoopAction.showHistory
  else if pyStrip s = "" then LoopAction.skip
  else LoopAction.relay s

/-- Observable result of processing input: printed lines, number of relay
(`send_message`) invocations, number of network calls, loop status, agent. -/
structure LoopResult where
  outputs : List String
  relayCalls : Nat
  networkCalls : Nat
  status : Status
  agent : GeminiAgent
deriving DecidableEq, Repr

/-- One iteration of the loop body on one input line. -/
def loopStep (a : GeminiAgent) (remote : Remote) (s : String) : LoopResult :=
  match dispatch s with
  | LoopAction.terminate =>
      ⟨["\nSage: Goodbye! Stay curious about our planet!"], 0, 0, Status.TERMINATED, a⟩
  | LoopAction.showHistory =>
      ⟨a.get_history, 0, 0, Status.RUNNING, a⟩
  | LoopAction.skip =>
      ⟨[], 0, 0, Status.RUNNING, a⟩
  | LoopAction.relay p =>
      let r := a.send_message remote p
      ⟨["Sage: " ++ r.1], 1, if r.2.2 then 1 else 0, Status.RUNNING, r.2.1⟩

/-- The whole loop over a finite input stream: stops at the first
terminating line, otherwise accumulates the per-line results. -/
def runLoop (a : GeminiAgent) (remote : Remote) : List String → LoopResult
  | [] => ⟨[], 0, 0, Status.RUNNING, a⟩
  | s :: rest =>
      let r := loopStep a remote s
      match r.status with
      | Status.TERMINATED => ⟨r.outputs, r.relayCalls, r.networkCalls, Status.TERMINATED, r.agent⟩
      | Status.RUNNING =>
          let r2 := runLoop r.agent remote rest
          ⟨r.outputs ++ r2.outputs, r.relayCalls + r2.relayCalls,
           r.networkCalls + r2.networkCalls, r2.status, r2.agent⟩

/-- Observable result of the whole program. -/
structure CliResult where
  outputs : List String
  agentConstructed : Bool
  relayCalls : Nat
  networkCalls : Nat
  exitCode : Nat
deriving DecidableEq, Repr

/-- The welcome banner (agent.py lines 87-91). -/
def welcomeBanner : List String :=
  ["\n------------------------------------------------------",
   "Welcome! You are chatting with Sage, the Climate Tutor.",
   "Type \x27history\x27 to see the conversation history.",
   "Type \x27quit\x27 or \x27exit\x27 to end the session.",
   "------------------------------------------------------\n"]

/-- `run_agent_cli` (agent.py lines 77-115): if the credential variable is
absent the program reports and returns before constructing the agent;
otherwise it constructs the agent, prints the banner and runs the loop.
The process exits 0 on every path. -/
def run_agent_cli (envHasKey : Bool) (clientInit : Except String Unit)
    (remote : Remote) (inputs : List String) : CliResult :=
  if envHasKey = false then
    { outputs := ["CRITICAL: Please set the \x27GEMINI_API_KEY\x27 environment variable.",
                  "You can get a key from Google AI Studio."],
      agentConstructed := false, relayCalls := 0, networkCalls := 0, exitCode := 0 }
  else
    let ini := GeminiAgent.init clientInit
    let r := runLoop ini.1 remote inputs
    { outputs := ini.2 ++ welcomeBanner ++ r.outputs,
      agentConstructed := true, relayCalls := r.relayCalls,
      networkCalls := r.networkCalls, exitCode := 0 }

/-- Sending a sequence of prompts through `send_message`, threading the agent. -/
def sendAll (a : GeminiAgent) (remote : Remote) : List String → GeminiAgent
  | [] => a
  | p :: ps => sendAll (a.send_message remote p).2.1 remote ps

/-- The role sequence of n user/model exchanges in chronological order. -/
def altRoles : Nat → List String
  | 0 => []
  | n + 1 => "user" :: "model" :: altRoles n

/-- The text of the first content part, when there is one and it carries a
text attribute: the condition guarding line 72 of agent.py. -/
def firstText (parts : List Part) : Option String :=
  match parts with
  | [] => none
  | p :: _ => p.text

/-- Case folding fixes whitespace characters. -/
theorem isPyWS_lower_fixed (c : Char) (h : isPyWS c = true) : pyCharLower c = c := by
  unfold isPyWS at h
  simp only [Bool.or_eq_true, decide_eq_true_eq] at h
  rcases h with ((((h | h) | h) | h) | h) | h <;> subst h <;> decide

/-- If `strip` empties a string, every character of it is whitespace. -/
theorem pyStrip_empty_all_ws (s : String) (h : pyStrip s = "") :
    ∀ c ∈ s.data, isPyWS c = true := by
  have hd : ((s.data.dropWhile isPyWS).reverse.dropWhile isPyWS).reverse = [] :=
    congrArg String.data h
  rw [List.reverse_eq_nil_iff] at hd
  have h2 : ∀ c ∈ (s.data.dropWhile isPyWS).reverse, isPyWS c = true :=
    List.dropWhile_eq_nil_iff.mp hd
  have h3 : ∀ c ∈ s.data.dropWhile isPyWS, isPyWS c = true := by
    intro c hc
    exact h2 c (List.mem_reverse.mpr hc)
  intro c hc
  rw [← List.takeWhile_append_dropWhile (p := isPyWS) (l := s.data)] at hc
  rcases List.mem_append.mp hc with hc | hc
  · exact List.mem_takeWhile_imp hc
  · exact h3 c hc

/-- If every character of `s` is whitespace and `k` contains a
non-whitespace character, then `s.lower()` is not `k`. -/
theorem all_ws_pyLower_ne (s k : String) (hall : ∀ c ∈ s.data, isPyWS c = true)
    (c : Char) (hc : c ∈ k.data) (hcws : isPyWS c = false) : pyLower s ≠ k := by
  intro he
  have hdata : s.data.map pyCharLower = k.data := congrArg String.data he
  rw [← hdata] at hc
  obtain ⟨d, hd, hdc⟩ := List.mem_map.mp hc
  have hw := hall d hd
  rw [isPyWS_lower_fixed d hw] at hdc
  subst hdc
  rw [hw] at hcws
  exact Bool.noConfusion hcws

/-- `strip` is the identity on a string whose first and last characters
are not whitespace. -/
theorem pyStrip_eq_self (s : String)
    (h1 : ∀ c, s.data.head? = some c → isPyWS c = false)
    (h2 : ∀ c, s.data.getLast? = some c → isPyWS c = false) :
    pyStrip s = s := by
  cases s with
  | mk l =>
    show (⟨((l.dropWhile isPyWS).reverse.dropWhile isPyWS).reverse⟩ : String) = ⟨l⟩
    congr 1
    cases l with
    | nil => rfl
    | cons c t =>
      have hc : isPyWS c = false := h1 c rfl
      rw [List.dropWhile_cons, hc]
      simp only [Bool.false_eq_true, if_false]
      rcases hr : (c :: t).reverse with _ | ⟨d, u⟩
      · exact absurd (List.reverse_eq_nil_iff.mp hr) (List.cons_ne_nil c t)
      · have hd : isPyWS d = false := by
          apply h2
          rw [← List.head?_reverse, hr]
          rfl
        rw [List.dropWhile_cons, hd]
        simp only [Bool.false_eq_true, if_false]
        rw [← hr, List.reverse_reverse]

/-- If `s.lower()` is a keyword whose first and last characters are not
whitespace, then `strip` leaves `s` unchanged. -/
theorem pyLower_keyword_pyStrip_self (s k : String) (hk : pyLower s = k)
    (hh : ∀ c, k.data.head? = some c → isPyWS c = false)
    (hl : ∀ c, k.data.getLast? = some c → isPyWS c = false) :
    pyStrip s = s := by
  have hdata : s.data.map pyCharLower = k.data := congrArg String.data hk
  apply pyStrip_eq_self
  · intro c hc
    have hhead : k.data.head? = some (pyCharLower c) := by
      rw [← hdata, List.head?_map, hc]
      rfl
    have hlow := hh _ hhead
    by_contra hcw
    have hcw' : isPyWS c = true := by
      cases hb : isPyWS c
      · exact absurd hb hcw
      · rfl
    rw [isPyWS_lower_fixed c hcw', hcw'] at hlow
    exact Bool.noConfusion hlow
  · intro c hc
    have hlast : k.data.getLast? = some (pyCharLower c) := by
      rw [← hdata, List.getLast?_map, hc]
      rfl
    have hlow := hl _ hlast
    by_contra hcw
    have hcw' : isPyWS c = true := by
      cases hb : isPyWS c
      · exact absurd hb hcw
      · rfl
    rw [isPyWS_lower_fixed c hcw', hcw'] at hlow
    exact Bool.noConfusion hlow

/-- C1: when client construction fails, the factory does not raise: it
records a disabled state (`clientOk = false`) and reports the diagnostic
lines; and every relay call on a disabled session returns the fixed
apology immediately, leaves the session unchanged (so all later calls are
also disabled), and performs no network call. -/
theorem init_failure_disables_relay (e prompt : String) (remote : Remote)
    (a : GeminiAgent) (hdis : a.clientOk = false) :
    (GeminiAgent.init (Except.error e)).1.clientOk = false
    ∧ (GeminiAgent.init (Except.error e)).2 =
        ["Error initializing Gemini client. Make sure the GEMINI_API_KEY environment variable is set.",
         "Details: " ++ e]
    ∧ a.send_message remote prompt =
        ("Agent failed to initialize. Please check your API key setup.", a, false) := by
  refine ⟨rfl, rfl, ?_⟩
  unfold GeminiAgent.send_message
  rw [hdis]
  rfl

/-- C1 witness: a concrete failed construction and a relay call on it. -/
theorem init_failure_disables_relay_witness :
    (GeminiAgent.init (Except.error "boom")).1.clientOk = false
    ∧ (GeminiAgent.init (Except.error "boom")).2 =
        ["Error initializing Gemini client. Make sure the GEMINI_API_KEY environment variable is set.",
         "Details: " ++ "boom"]
    ∧ (GeminiAgent.mk false []).send_message (fun _ _ => Except.ok "hi") "hello" =
        ("Agent failed to initialize. Please check your API key setup.",
         GeminiAgent.mk false [], false) :=
  init_failure_disables_relay "boom" "hello" (fun _ _ => Except.ok "hi")
    (GeminiAgent.mk false []) rfl

/-- C2: when the remote call raises, the relay catches the exception and
returns a human-readable description of it as the reply; `send_message`
is total, so nothing propagates to the caller. -/
theorem network_exception_becomes_reply (a : GeminiAgent) (hok : a.clientOk = true)
    (remote : Remote) (prompt e : String)
    (hr : remote a.history prompt = Except.error e) :
    a.send_message remote prompt =
      ("An error occurred during message processing: " ++ e, a, true) := by
  unfold GeminiAgent.send_message
  rw [hok, hr]
  rfl

/-- C2 witness: a concrete raising remote. -/
theorem network_exception_becomes_reply_witness :
    (GeminiAgent.mk true []).send_message (fun _ _ => Except.error "net down") "hello" =
      ("An error occurred during message processing: " ++ "net down",
       GeminiAgent.mk true [], true) :=
  network_exception_becomes_reply (GeminiAgent.mk true []) rfl
    (fun _ _ => Except.error "net down") "hello" "net down" rfl

/-- C3: a turn whose content has no first text part renders as the
placeholder marker, and the first part's text is used exactly when it is
present. -/
theorem missing_text_renders_placeholder (m : Message) :
    (firstText m.parts = none → extractText m.parts = "[Non-Text Content]")
    ∧ ∀ t, firstText m.parts = some t → extractText m.parts = t := by
  rcases m with ⟨role, parts⟩
  rcases parts with _ | ⟨p, rest⟩
  · exact ⟨fun _ => rfl, fun t ht => Option.noConfusion ht⟩
  · rcases p with ⟨txt⟩
    rcases txt with _ | t
    · exact ⟨fun _ => rfl, fun t ht => Option.noConfusion ht⟩
    · refine ⟨fun hn => Option.noConfusion hn, fun u hu => ?_⟩
      have : t = u := Option.some.inj hu
      rw [← this]
      rfl

/-- C3 witness: a text-less turn renders as the placeholder, a text part
is rendered verbatim. -/
theorem missing_text_renders_placeholder_witness :
    extractText (Message.mk "model" [Part.mk none]).parts = "[Non-Text Content]"
    ∧ extractText (Message.mk "model" [Part.mk (some "hi")]).parts = "hi" :=
  ⟨(missing_text_renders_placeholder (Message.mk "model" [Part.mk none])).1 rfl,
   (missing_text_renders_placeholder (Message.mk "model" [Part.mk (some "hi")])).2 "hi" rfl⟩

/-- C4: when the credential variable is absent the program prints the
critical report and returns before constructing the agent: no agent, no
relay call, no network call, and exit code 0, whatever the inputs were. -/
theorem missing_credential_exits_before_loop (clientInit : Except String Unit)
    (remote : Remote) (inputs : List String) :
    run_agent_cli false clientInit remote inputs =
      { outputs := ["CRITICAL: Please set the \x27GEMINI_API_KEY\x27 environment variable.",
                    "You can get a key from Google AI Studio."],
        agentConstructed := false, relayCalls := 0, networkCalls := 0, exitCode := 0 } :=
  rfl

/-- C5: an input whose lower-casing is `quit` or `exit` terminates the
loop, prints the farewell exactly once, and performs no relay call. -/
theorem quit_exit_terminates (a : GeminiAgent) (remote : Remote) (s : String)
    (h : pyLower s = "quit" ∨ pyLower s = "exit") :
    loopStep a remote s =
      ⟨["\nSage: Goodbye! Stay curious about our planet!"], 0, 0,
       Status.TERMINATED, a⟩ := by
  unfold loopStep dispatch
  rw [if_pos h]

/-- C5 witness: the upper-case variant QUIT terminates. -/
theorem quit_exit_terminates_witness :
    loopStep (GeminiAgent.mk true []) (fun _ _ => Except.ok "hi") "QUIT" =
      ⟨["\nSage: Goodbye! Stay curious about our planet!"], 0, 0,
       Status.TERMINATED, GeminiAgent.mk true []⟩ :=
  quit_exit_terminates (GeminiAgent.mk true []) (fun _ _ => Except.ok "hi") "QUIT"
    (Or.inl (by decide))

/-- C7: an input whose lower-casing is `history` invokes the history
printer, performs no relay call and stays RUNNING. -/
theorem history_keyword_prints_history (a : GeminiAgent) (remote : Remote)
    (s : String) (h : pyLower s = "history") :
    loopStep a remote s = ⟨a.get_history, 0, 0, Status.RUNNING, a⟩ := by
  have h1 : ¬ (pyLower s = "quit" ∨ pyLower s = "exit") := by
    rw [h]
    decide
  unfold loopStep dispatch
  rw [if_neg h1, if_pos h]

/-- C7 witness: the mixed-case variant History prints the history. -/
theorem history_keyword_prints_history_witness :
    loopStep (GeminiAgent.mk true []) (fun _ _ => Except.ok "hi") "History" =
      ⟨(GeminiAgent.mk true []).get_history, 0, 0, Status.RUNNING,
       GeminiAgent.mk true []⟩ :=
  history_keyword_prints_history (GeminiAgent.mk true [])
    (fun _ _ => Except.ok "hi") "History" (by decide)

/-- C9: the history printer labels role `user` as USER and every other
role value as the persona label SAGE; no role yields any other label. -/
theorem role_label_total (m : Message) :
    (m.role = "user" → roleLabel m.role = "USER")
    ∧ (m.role ≠ "user" → roleLabel m.role = "SAGE")
    ∧ (roleLabel m.role = "USER" ∨ roleLabel m.role = "SAGE") := by
  unfold roleLabel
  by_cases h : m.role = "user"
  · rw [if_pos h]
    exact ⟨fun _ => rfl, fun hn => absurd h hn, Or.inl rfl⟩
  · rw [if_neg h]
    exact ⟨fun hu => absurd hu h, fun _ => rfl, Or.inr rfl⟩

/-- C9 witness: an unrecognized role such as tool is labelled SAGE. -/
theorem role_label_total_witness :
    roleLabel (Message.mk "tool" []).role = "SAGE" :=
  (role_label_total (Message.mk "tool" [])).2.1 (by decide)

/-- C6: an empty or whitespace-only input line is a no-op: the loop stays
RUNNING, prints nothing, and performs no relay call. -/
theorem blank_input_is_noop (a : GeminiAgent) (remote : Remote) (s : String)
    (h : pyStrip s = "") :
    loopStep a remote s = ⟨[], 0, 0, Status.RUNNING, a⟩ := by
  have hall := pyStrip_empty_all_ws s h
  have hq : pyLower s ≠ "quit" :=
    all_ws_pyLower_ne s "quit" hall 'q' (by decide) (by decide)
  have hx : pyLower s ≠ "exit" :=
    all_ws_pyLower_ne s "exit" hall 'e' (by decide) (by decide)
  have hh : pyLower s ≠ "history" :=
    all_ws_pyLower_ne s "history" hall 'h' (by decide) (by decide)
  have h1 : ¬ (pyLower s = "quit" ∨ pyLower s = "exit") := by
    intro hc
    rcases hc with hc | hc
    · exact hq hc
    · exact hx hc
  unfold loopStep dispatch
  rw [if_neg h1, if_neg hh, if_pos h]

/-- C6 witness: a line of spaces and a tab is skipped. -/
theorem blank_input_is_noop_witness :
    loopStep (GeminiAgent.mk true []) (fun _ _ => Except.ok "hi") "  \t " =
      ⟨[], 0, 0, Status.RUNNING, GeminiAgent.mk true []⟩ :=
  blank_input_is_noop (GeminiAgent.mk true []) (fun _ _ => Except.ok "hi") "  \t "
    (by decide)

/-- C10: a recognized keyword surrounded by at least one whitespace
character is not recognized: the loop treats the line as free text and
forwards it, whitespace included, to the relay. -/
theorem padded_keyword_is_free_text (a : GeminiAgent) (remote : Remote) (s : String)
    (hk : pyLower (pyStrip s) = "quit" ∨ pyLower (pyStrip s) = "exit"
          ∨ pyLower (pyStrip s) = "history")
    (hws : s ≠ pyStrip s) :
    loopStep a remote s =
      ⟨["Sage: " ++ (a.send_message remote s).1], 1,
       if (a.send_message remote s).2.2 then 1 else 0, Status.RUNNING,
       (a.send_message remote s).2.1⟩ := by
  have hne : pyStrip s ≠ "" := by
    intro h0
    rw [h0] at hk
    rcases hk with h | h | h <;> exact absurd h (by decide)
  have hq : pyLower s ≠ "quit" := by
    intro h
    exact hws (pyLower_keyword_pyStrip_self s "quit" h
      (fun c hc => by rw [← Option.some.inj hc]; decide)
      (fun c hc => by rw [← Option.some.inj hc]; decide)).symm
  have hx : pyLower s ≠ "exit" := by
    intro h
    exact hws (pyLower_keyword_pyStrip_self s "exit" h
      (fun c hc => by rw [← Option.some.inj hc]; decide)
      (fun c hc => by rw [← Option.some.inj hc]; decide)).symm
  have hh : pyLower s ≠ "history" := by
    intro h
    exact hws (pyLower_keyword_pyStrip_self s "history" h
      (fun c hc => by rw [← Option.some.inj hc]; decide)
      (fun c hc => by rw [← Option.some.inj hc]; decide)).symm
  have h1 : ¬ (pyLower s = "quit" ∨ pyLower s = "exit") := by
    intro hc
    rcases hc with hc | hc
    · exact hq hc
    · exact hx hc
  unfold loopStep dispatch
  rw [if_neg h1, if_neg hh, if_neg hne]

/-- C10 witness: the line quit with a leading space is relayed verbatim. -/
theorem padded_keyword_is_free_text_witness :
    loopStep (GeminiAgent.mk true []) (fun _ _ => Except.ok "hi") " quit" =
      ⟨["Sage: " ++ ((GeminiAgent.mk true []).send_message
          (fun _ _ => Except.ok "hi") " quit").1], 1,
       if ((GeminiAgent.mk true []).send_message
          (fun _ _ => Except.ok "hi") " quit").2.2 then 1 else 0, Status.RUNNING,
       ((GeminiAgent.mk true []).send_message
          (fun _ _ => Except.ok "hi") " quit").2.1⟩ :=
  padded_keyword_is_free_text (GeminiAgent.mk true []) (fun _ _ => Except.ok "hi")
    " quit" (Or.inl (by decide)) (by decide)

/-- A successful remote call appends exactly one user turn and one model
turn, leaves the client enabled, and touches nothing else. -/
theorem send_message_ok (a : GeminiAgent) (hok : a.clientOk = true)
    (remote : Remote) (prompt t : String)
    (ht : remote a.history prompt = Except.ok t) :
    a.send_message remote prompt =
      (t, ⟨true, a.history ++ [⟨"user", [⟨some prompt⟩]⟩, ⟨"model", [⟨some t⟩]⟩]⟩,
       true) := by
  unfold GeminiAgent.send_message
  rw [hok, ht]
  rfl

/-- Relaying a sequence of prompts through an enabled session with an
always-succeeding remote appends user/model pairs and never disables the
session. -/
theorem sendAll_appends (remote : Remote)
    (hok : ∀ h p, ∃ t, remote h p = Except.ok t) :
    ∀ (ps : List String) (a : GeminiAgent), a.clientOk = true →
      (sendAll a remote ps).clientOk = true ∧
      ∃ ext, (sendAll a remote ps).history = a.history ++ ext ∧
        ext.map Message.role = altRoles ps.length := by
  intro ps
  induction ps with
  | nil =>
      intro a ha
      exact ⟨ha, [], by simp [sendAll], rfl⟩
  | cons p ps ih =>
      intro a ha
      obtain ⟨t, ht⟩ := hok a.history p
      have hsend := send_message_ok a ha remote p t ht
      have hstep : sendAll a remote (p :: ps) =
          sendAll ⟨true, a.history ++ [⟨"user", [⟨some p⟩]⟩, ⟨"model", [⟨some t⟩]⟩]⟩
            remote ps := by
        show sendAll (a.send_message remote p).2.1 remote ps = _
        rw [hsend]
      rw [hstep]
      obtain ⟨hok2, ext, hhist, hroles⟩ :=
        ih ⟨true, a.history ++ [⟨"user", [⟨some p⟩]⟩, ⟨"model", [⟨some t⟩]⟩]⟩ rfl
      refine ⟨hok2, ⟨"user", [⟨some p⟩]⟩ :: ⟨"model", [⟨some t⟩]⟩ :: ext, ?_, ?_⟩
      · rw [hhist]
        simp
      · simp only [List.map_cons, hroles]
        rfl

/-- `altRoles n` contains n user tags. -/
theorem altRoles_count_user (n : Nat) : (altRoles n).count "user" = n := by
  induction n with
  | zero => rfl
  | succ n ih =>
      show (("user" :: "model" :: altRoles n).count "user") = n + 1
      rw [List.count_cons, List.count_cons, ih]
      rfl

/-- `altRoles n` contains n model tags. -/
theorem altRoles_count_model (n : Nat) : (altRoles n).count "model" = n := by
  induction n with
  | zero => rfl
  | succ n ih =>
      show (("user" :: "model" :: altRoles n).count "model") = n + 1
      rw [List.count_cons, List.count_cons, ih]
      rfl

/-- C8: starting from a fresh enabled session, after N successful relay
calls the fetched history is exactly N user turns and N model turns in
strict chronological alternation (user then model per call): its role
sequence is `altRoles N`, so it counts N of each, with nothing dropped,
reordered or rewritten. -/
theorem history_after_relays (remote : Remote)
    (hok : ∀ h p, ∃ t, remote h p = Except.ok t)
    (ps : List String) (a : GeminiAgent)
    (ha : a.clientOk = true) (h0 : a.history = []) :
    (sendAll a remote ps).history.map Message.role = altRoles ps.length
    ∧ ((sendAll a remote ps).history.map Message.role).count "user" = ps.length
    ∧ ((sendAll a remote ps).history.map Message.role).count "model" = ps.length := by
  obtain ⟨_, ext, hhist, hroles⟩ := sendAll_appends remote hok ps a ha
  rw [hhist, h0, List.nil_append]
  exact ⟨hroles, by rw [hroles, altRoles_count_user],
         by rw [hroles, altRoles_count_model]⟩

/-- C8 witness: two successful relay calls yield user, model, user, model. -/
theorem history_after_relays_witness :
    (sendAll (GeminiAgent.mk true []) (fun _ _ => Except.ok "r")
        ["q1", "q2"]).history.map Message.role = altRoles 2
    ∧ ((sendAll (GeminiAgent.mk true []) (fun _ _ => Except.ok "r")
        ["q1", "q2"]).history.map Message.role).count "user" = 2
    ∧ ((sendAll (GeminiAgent.mk true []) (fun _ _ => Except.ok "r")
        ["q1", "q2"]).history.map Message.role).count "model" = 2 :=
  history_after_relays (fun _ _ => Except.ok "r") (fun _ _ => ⟨"r", rfl⟩)
    ["q1", "q2"] (GeminiAgent.mk true []) rfl rfl

end ClimateSage
